import Mathlib

/-!
Verification development for the defect-detection feature pipeline.

The definitions below are a shallow embedding of the Python modules

  * `software_defect_detection/utils/static_analysis.py` (metric extractor),
  * `utils/feature_extract.py` (feature vectorizer and model provider),
  * `software_defect_detection/utils/promise_ingest.py` (dataset ingestor).

Conventions of the embedding:

  * Python strings are `String` / `List Char`; Python floats are modelled by
    `ℚ` (the numeric values produced by the pipeline are counts and one exact
    quotient, so rational arithmetic mirrors them; IEEE rounding is not the
    subject of any claim).
  * Python dicts with string keys are association lists `List (String × _)`
    in insertion order; `dict.get k default` is `(l.lookup k).getD default`.
  * Fallible Python code (`raise` / `except`) is `Except String _`.
  * The regular expressions of `static_analysis.py` are embedded as
    explicit scanners over `List Char`, reproducing `re.findall`'s
    left-to-right non-overlapping scan, the leftmost-alternative rule, and
    `\b` word-boundary semantics.  The character classes `\w` and `\s` are
    embedded as their ASCII parts (the inputs in the claims are ASCII).
-/

/-! ## Character classes and Python string primitives -/

/-- ASCII part of the `\w` character class of Python `re` (`[a-zA-Z0-9_]`). -/
def isWordChar (c : Char) : Bool :=
  c.isAlphanum || c = '_'

/-- ASCII/Latin-1 part of Python's whitespace set, used both by `str.strip`
and by the `\s` class of `re` (space, tab, LF, VT, FF, CR, plus the file,
group and record separators, NEL and NBSP recognised by `str.strip`). -/
def isPySpace (c : Char) : Bool :=
  c = ' ' || c = '\t' || c = '\n' || c = '\x0b' || c = '\x0c' || c = '\r' ||
  c = '\x1c' || c = '\x1d' || c = '\x1e' || c = '\x1f' || c = '\x85' || c = '\xa0'

/-- `str.strip()`: drop leading and trailing whitespace. -/
def pyStrip (l : List Char) : List Char :=
  ((l.dropWhile isPySpace).reverse.dropWhile isPySpace).reverse

/-- Line-boundary characters of `str.splitlines` other than the `\r\n` pair
(LF, VT, FF, CR, FS, GS, RS, NEL, LINE SEPARATOR, PARAGRAPH SEPARATOR). -/
def isLineBreak (c : Char) : Bool :=
  c = '\n' || c = '\x0b' || c = '\x0c' || c = '\r' ||
  c = '\x1c' || c = '\x1d' || c = '\x1e' || c = '\x85' ||
  c = '\u2028' || c = '\u2029'

/-- Worker for `pySplitlines`: `cur` is the reversed current line. -/
def pySplitlinesGo (cur : List Char) : List Char → List (List Char)
  | [] => [cur.reverse]
  | '\r' :: '\n' :: rest =>
    cur.reverse :: (if rest.isEmpty then [] else pySplitlinesGo [] rest)
  | c :: rest =>
    if isLineBreak c then
      cur.reverse :: (if rest.isEmpty then [] else pySplitlinesGo [] rest)
    else
      pySplitlinesGo (c :: cur) rest

/-- `str.splitlines()`: split at line boundaries (`\r\n` counting as one),
with no trailing empty line for a terminal newline, and `[]` for `""`. -/
def pySplitlines (l : List Char) : List (List Char) :=
  if l.isEmpty then [] else pySplitlinesGo [] l

/-! ## A `re.findall` scanner

A *matcher* `matchAt : Option Char → List Char → Option (Char × List Char)`
tries one regex match anchored at the head of its list argument; the
`Option Char` is the character just before that position (`none` at the
start of the text), needed for `\b`.  On success it returns the last
character the match consumed and the remaining input.  All matchers below
consume at least one character when they succeed, so running the scanner
with `fuel = length of the input` never exhausts the fuel. -/

/-- Word-ness of the character on one side of a position; the imaginary
characters beyond either end of the text are non-word. -/
def wordB (oc : Option Char) : Bool :=
  match oc with
  | some c => isWordChar c
  | none => false

/-- `\b` holds between two (optional) characters iff exactly one side is a
word character. -/
def boundaryB (l r : Option Char) : Bool :=
  wordB l != wordB r

/-- Left-to-right non-overlapping scan of `re.findall`, counting matches.
At each position the matcher is tried; on failure the scan advances one
character, on success it resumes right after the match. -/
def scanCount (matchAt : Option Char → List Char → Option (Char × List Char)) :
    Nat → Option Char → List Char → Nat
  | 0, _, _ => 0
  | _ + 1, _, [] => 0
  | fuel + 1, prev, c :: rest =>
    match matchAt prev (c :: rest) with
    | some (lastC, rem) => 1 + scanCount matchAt fuel (some lastC) rem
    | none => scanCount matchAt fuel (some c) rest

/-- `len(re.findall(pattern, text))` for the matcher embedding `pattern`. -/
def reFindallCount (matchAt : Option Char → List Char → Option (Char × List Char))
    (cs : List Char) : Nat :=
  scanCount matchAt cs.length none cs

/-- Character comparison, optionally case-insensitive (`re.IGNORECASE`). -/
def charEqCI (ci : Bool) (p c : Char) : Bool :=
  if ci then p.toLower = c.toLower else p = c

/-- Match the literal pattern characters `ps` against the head of `cs`,
returning the rest of `cs` on success. -/
def litMatch (ci : Bool) : List Char → List Char → Option (List Char)
  | [], cs => some cs
  | _ :: _, [] => none
  | p :: ps, c :: cs => if charEqCI ci p c then litMatch ci ps cs else none

/-- Matcher for `\b(alt1|alt2|...)\b`: alternatives are tried in the
pattern's order at the current position (Python's leftmost-alternative
rule); an alternative succeeds when it matches literally and the word
boundary holds on both sides of the matched text. -/
def matchAltsAt (ci : Bool) (alts : List (List Char)) (prev : Option Char)
    (cs : List Char) : Option (Char × List Char) :=
  match alts with
  | [] => none
  | alt :: moreAlts =>
    match litMatch ci alt cs with
    | some rem =>
      match (cs.take alt.length).getLast? with
      | some lastC =>
        if boundaryB prev cs.head? && boundaryB (some lastC) rem.head? then
          some (lastC, rem)
        else
          matchAltsAt ci moreAlts prev cs
      | none => matchAltsAt ci moreAlts prev cs
    | none => matchAltsAt ci moreAlts prev cs

/-- The alternatives of `CONTROL_KEYWORDS`, in the order they appear in
`re.compile(r"\b(if|elif|for|while|and|or|case|except|catch|&&|\|\|)\b")`. -/
def CONTROL_KEYWORDS : List (List Char) :=
  ["if", "elif", "for", "while", "and", "or",
   "case", "except", "catch", "&&", "||"].map String.toList

/-- Matcher for `CONTROL_KEYWORDS` at one position. -/
def matchKeywordAt (prev : Option Char) (cs : List Char) :
    Option (Char × List Char) :=
  matchAltsAt false CONTROL_KEYWORDS prev cs

/-- `len(CONTROL_KEYWORDS.findall(text))`. -/
def countControlTokens (cs : List Char) : Nat :=
  reFindallCount matchKeywordAt cs

/-- Matcher for `\b(TODO|FIXME)\b` with `re.IGNORECASE`. -/
def matchTodoAt (prev : Option Char) (cs : List Char) :
    Option (Char × List Char) :=
  matchAltsAt true (["TODO", "FIXME"].map String.toList) prev cs

/-- `len(re.findall(r"\b(TODO|FIXME)\b", text, flags=re.IGNORECASE))`. -/
def countTodoTokens (cs : List Char) : Nat :=
  reFindallCount matchTodoAt cs

/-! ## The three function-signature patterns

`\w+`, `\s+`, `\s*` are followed in each pattern by a character from a
disjoint class, so greedy maximal munch is exact (no backtracking can
succeed where maximal munch fails). -/

/-- The character `{` (written via its code point to keep string literals
brace-free). -/
def lbraceChar : Char := Char.ofNat 123

/-- Matcher for `\bdef\s+\w+\s*\(` at one position. -/
def matchDefAt (prev : Option Char) (cs : List Char) :
    Option (Char × List Char) :=
  match litMatch false ("def".toList) cs with
  | none => none
  | some r1 =>
    if boundaryB prev cs.head? then
      match r1 with
      | c1 :: _ =>
        if isPySpace c1 then
          let r2 := r1.dropWhile isPySpace
          match r2 with
          | c2 :: _ =>
            if isWordChar c2 then
              let r3 := r2.dropWhile isWordChar
              let r4 := r3.dropWhile isPySpace
              match r4 with
              | '(' :: r5 => some ('(', r5)
              | _ => none
            else none
          | [] => none
        else none
      | [] => none
    else none

/-- Matcher for `\bfunction\s+\w+\s*\(` at one position. -/
def matchFunctionAt (prev : Option Char) (cs : List Char) :
    Option (Char × List Char) :=
  match litMatch false ("function".toList) cs with
  | none => none
  | some r1 =>
    if boundaryB prev cs.head? then
      match r1 with
      | c1 :: _ =>
        if isPySpace c1 then
          let r2 := r1.dropWhile isPySpace
          match r2 with
          | c2 :: _ =>
            if isWordChar c2 then
              let r3 := r2.dropWhile isWordChar
              let r4 := r3.dropWhile isPySpace
              match r4 with
              | '(' :: r5 => some ('(', r5)
              | _ => none
            else none
          | [] => none
        else none
      | [] => none
    else none

/-- Close the tail `\)\s*\{` of the C-like pattern at the head of `cs`. -/
def closeParenBrace (cs : List Char) : Option (List Char) :=
  match cs with
  | ')' :: r1 =>
    match r1.dropWhile isPySpace with
    | c :: r2 => if c = lbraceChar then some r2 else none
    | [] => none
  | _ => none

/-- Greedy `.*\)\s*\{`: `.` does not match `\n`, and the star is greedy, so
the *last* offset within the current line at which `\)\s*\{` completes is
taken.  `k` counts down from the line length. -/
def greedyCloseFrom (cs : List Char) : Nat → Option (List Char)
  | 0 => closeParenBrace cs
  | k + 1 =>
    match closeParenBrace (cs.drop (k + 1)) with
    | some rem => some rem
    | none => greedyCloseFrom cs k

/-- Matcher for the C-like signature `\b\w+\s+\w+\s*\(.*\)\s*\{`. -/
def matchCLikeAt (prev : Option Char) (cs : List Char) :
    Option (Char × List Char) :=
  match cs with
  | c0 :: _ =>
    if isWordChar c0 && !(wordB prev) then
      let r1 := cs.dropWhile isWordChar
      match r1 with
      | c1 :: _ =>
        if isPySpace c1 then
          let r2 := r1.dropWhile isPySpace
          match r2 with
          | c2 :: _ =>
            if isWordChar c2 then
              let r3 := r2.dropWhile isWordChar
              let r4 := r3.dropWhile isPySpace
              match r4 with
              | '(' :: r5 =>
                match greedyCloseFrom r5 ((r5.takeWhile (fun c => c ≠ '\n')).length) with
                | some rem => some (lbraceChar, rem)
                | none => none
              | _ => none
            else none
          | [] => none
        else none
      | [] => none
    else none
  | [] => none

/-! ## `analyze_code` -/

/-- Python's substring test `needle in hay` on character lists. -/
def listInfixOf (needle : List Char) : List Char → Bool
  | [] => needle.isEmpty
  | c :: rest => needle.isPrefixOf (c :: rest) || listInfixOf needle rest

/-- The predicate of the `non_empty_lines` comprehension: `ln.strip()` is
truthy. -/
def isNonEmptyLine (ln : List Char) : Bool :=
  !(pyStrip ln).isEmpty

/-- The comment test of `analyze_code`: the stripped line starts with `#`
or `//`, or contains `/*`. -/
def isCommentLine (ln : List Char) : Bool :=
  let stripped := pyStrip ln
  ("#".toList.isPrefixOf stripped || "//".toList.isPrefixOf stripped) ||
  listInfixOf "/*".toList stripped

/-- `num_functions`: total match count of the three patterns over the whole
text, in the order they appear in `function_patterns` (matches are not
deduplicated across patterns). -/
def countFunctionMatches (cs : List Char) : Nat :=
  reFindallCount matchDefAt cs + reFindallCount matchFunctionAt cs +
    reFindallCount matchCLikeAt cs

/-- The `lines` local of `analyze_code`: `code_text.splitlines()`. -/
def linesOf (code_text : String) : List (List Char) :=
  pySplitlines code_text.toList

/-- The `non_empty_lines` local of `analyze_code`. -/
def nonEmptyLinesOf (code_text : String) : List (List Char) :=
  (linesOf code_text).filter isNonEmptyLine

/-- The `loc` metric: number of non-empty lines. -/
def locMetric (code_text : String) : ℚ :=
  ((nonEmptyLinesOf code_text).length : ℚ)

/-- The `num_comments` metric: comment-looking lines, once per line. -/
def numCommentsMetric (code_text : String) : ℚ :=
  (((linesOf code_text).filter isCommentLine).length : ℚ)

/-- The `num_functions` metric. -/
def numFunctionsMetric (code_text : String) : ℚ :=
  (countFunctionMatches code_text.toList : ℚ)

/-- The `cyclomatic_complexity_estimate` metric: control-token count plus
the 1.0 baseline. -/
def complexityMetric (code_text : String) : ℚ :=
  (countControlTokens code_text.toList : ℚ) + 1

/-- The `avg_line_length` metric: mean length of the non-empty lines, 0.0
when there are none. -/
def avgLineLengthMetric (code_text : String) : ℚ :=
  if (nonEmptyLinesOf code_text).isEmpty then 0
  else (((nonEmptyLinesOf code_text).map List.length).sum : ℚ) /
    ((nonEmptyLinesOf code_text).length : ℚ)

/-- The `num_todos` metric. -/
def numTodosMetric (code_text : String) : ℚ :=
  (countTodoTokens code_text.toList : ℚ)

/-- Shallow embedding of `analyze_code` (static_analysis.py, lines 8-62):
the returned Python dict, as an association list in the dict literal's key
order.  The function is total: every input yields a six-entry record. -/
def analyze_code (code_text : String) : List (String × ℚ) :=
  [("loc", locMetric code_text),
   ("num_comments", numCommentsMetric code_text),
   ("num_functions", numFunctionsMetric code_text),
   ("cyclomatic_complexity_estimate", complexityMetric code_text),
   ("avg_line_length", avgLineLengthMetric code_text),
   ("num_todos", numTodosMetric code_text)]

/-! ## `feature_extract.py`: schema and vectorizer -/

/-- The fixed feature schema `FEATURE_COLUMNS` (feature_extract.py, lines
9-16), in source order. -/
def FEATURE_COLUMNS : List String :=
  ["loc",
   "num_comments",
   "num_functions",
   "cyclomatic_complexity_estimate",
   "avg_line_length",
   "num_todos"]

/-- Shallow embedding of `metrics_to_features` (feature_extract.py, lines
19-26): the single row of the returned one-row `DataFrame`, whose columns
are `FEATURE_COLUMNS` in order and whose entries are
`float(metrics.get(name, 0.0))`. -/
def metrics_to_features (metrics : List (String × ℚ)) : List ℚ :=
  FEATURE_COLUMNS.map (fun name => (metrics.lookup name).getD 0)

/-! ## `feature_extract.py`: model provider

The ML library (numpy / scikit-learn) is a black-box dependency of the
repository; it is modelled by an `MLBackend`: a deterministic seeded
Gaussian stream (`numpy.random.default_rng(seed).normal`), a deterministic
trainer (`RandomForestClassifier(n_estimators=100,
random_state=rs).fit(X, y)` — deterministic given `X`, `y`, `rs`), and a
predictor.  `pickle.load` is modelled by a caller-supplied partial
deserializer, and the filesystem by a partial map from paths to file
contents. -/

/-- A deserialized Python object: either a classifier of the backend's
model type or any other object (`pickle.load` can return anything). -/
inductive PyObj (RF : Type) where
  | model : RF → PyObj RF
  | other : Nat → PyObj RF
deriving DecidableEq

/-- The ML library as a deterministic black box. -/
structure MLBackend (RF : Type) where
  /-- `default_rng(seed).normal(...)`: entry `(row, col)` of the sampled
  matrix.  numpy's generator is a pure function of the seed. -/
  normal : Nat → Nat → Nat → ℚ
  /-- `RandomForestClassifier(n_estimators=100, random_state=rs).fit(X, y)`. -/
  trainRF : List (List ℚ) → List Nat → Nat → RF
  /-- `model.predict([v])[0]`. -/
  predictRF : RF → List ℚ → Nat

/-- The synthetic design matrix of `_train_fallback_model`:
`default_rng(42).normal(loc=0.0, scale=1.0, size=(128, 6))`. -/
def syntheticX {RF : Type} (B : MLBackend RF) : List (List ℚ) :=
  (List.range 128).map (fun i =>
    (List.range FEATURE_COLUMNS.length).map (fun j => B.normal 42 i j))

/-- The synthetic labels: `(X[:,cc] + 0.8*X[:,todos] + 0.4*X[:,loc] > 0.5)`
with the column indices looked up in `FEATURE_COLUMNS`, cast to int. -/
def syntheticY {RF : Type} (B : MLBackend RF) : List Nat :=
  (syntheticX B).map (fun x =>
    if (1 : ℚ)/2 <
        x.getD (FEATURE_COLUMNS.indexOf "cyclomatic_complexity_estimate") 0 +
        (8 : ℚ)/10 * x.getD (FEATURE_COLUMNS.indexOf "num_todos") 0 +
        (4 : ℚ)/10 * x.getD (FEATURE_COLUMNS.indexOf "loc") 0
    then 1 else 0)

/-- Shallow embedding of `_train_fallback_model` (feature_extract.py, lines
29-45): train the backend's forest on the fixed synthetic data, with
`random_state=42`. -/
def train_fallback_model {RF : Type} (B : MLBackend RF) : RF :=
  B.trainRF (syntheticX B) (syntheticY B) 42

/-- `os.path.basename` for POSIX-style paths. -/
def basename (p : String) : String :=
  ((p.splitOn "/").getLast?).getD ""

/-- The name string of the loaded branch:
`f"Loaded saved model ({os.path.basename(model_path)})"`. -/
def loadedName (model_path : String) : String :=
  "Loaded saved model (" ++ basename model_path ++ ")"

/-- The name string of the fallback branch. -/
def fallbackName : String := "Fallback RandomForest (synthetic)"

/-- Shallow embedding of `load_or_train_model` (feature_extract.py, lines
48-63).  `fs path` is `some content` iff `os.path.exists(path)` (reading
then yields `content`); `unpickle` is `pickle.load`, with `.error` for any
raised exception.  The `try` block covers the existence test, the open and
the load, and any failure falls through to the fallback.  The function has
no mutable state: each call re-runs this resolution from scratch. -/
def load_or_train_model {RF : Type} (B : MLBackend RF)
    (fs : String → Option String) (unpickle : String → Except Unit (PyObj RF))
    (model_path : String) : PyObj RF × String :=
  match fs model_path with
  | some content =>
    match unpickle content with
    | .ok m => (m, loadedName model_path)
    | .error _ => (.model (train_fallback_model B), fallbackName)
  | none => (.model (train_fallback_model B), fallbackName)

/-- Whether one call to `load_or_train_model` executes the fallback
training step (`_train_fallback_model()` is reached in its body).  Read
off the same control flow as `load_or_train_model`. -/
def trainsFallback {RF : Type} (fs : String → Option String)
    (unpickle : String → Except Unit (PyObj RF)) (model_path : String) : Bool :=
  match fs model_path with
  | some content =>
    match unpickle content with
    | .ok _ => false
    | .error _ => true
  | none => true

/-- Number of executions of the load-or-train step across a sequence of
calls in one process.  `feature_extract.py` keeps no module-level state
(no cache, no lock), so every call runs the step independently. -/
def trainStepsInCalls {RF : Type} (fs : String → Option String)
    (unpickle : String → Except Unit (PyObj RF)) (paths : List String) : Nat :=
  (paths.map (fun p => trainsFallback fs unpickle p)).count true

/-- Prediction through a deserialized object: only a backend model
predicts; any other object has no `predict` method. -/
def predictPyObj {RF : Type} (B : MLBackend RF) :
    PyObj RF → List ℚ → Option Nat
  | .model m, v => some (B.predictRF m v)
  | .other _, _ => none

/-! ## `promise_ingest.py`: dataset ingestor

A pandas cell as produced by `read_csv` is an int, a float, a bool, a
string, or missing (`NaN`); a `DataFrame` is an association list from
column name to cell column.  String-to-float parsing models the decimal
core of Python's `float()` (the claims' data are numeric cells, which do
not go through it). -/

/-- A pandas cell. -/
inductive Cell where
  | i : Int → Cell
  | f : ℚ → Cell
  | b : Bool → Cell
  | s : String → Cell
  | nan : Cell
deriving DecidableEq

/-- A pandas `DataFrame`: columns in order, each a list of cells. -/
abbrev Frame := List (String × List Cell)

/-- Stand-in for Python's float repr: like Python's it is built from
digits, signs and punctuation, so lowering it never yields the word
`true`/`false` (the only property the ingestor uses). -/
def pyFloatRepr (q : ℚ) : String := toString q

/-- `Series.astype(str)` on one cell: `NaN` becomes the string `"nan"`,
bools their Python repr. -/
def astypeStr : Cell → String
  | .i n => toString n
  | .f q => pyFloatRepr q
  | .b true => "True"
  | .b false => "False"
  | .s v => v
  | .nan => "nan"

/-- `str.lower()` (ASCII case mapping, which is all the label strings
exercise). -/
def pyLower (s : String) : String :=
  String.mk (s.data.map Char.toLower)

/-- The label normalization of `_map_promise_to_features` line 32 on one
cell: `astype(str).str.lower().map({"true": 1, "false": 0})`; values
outside the dict become `NaN` (`none`). -/
def parseDefect (c : Cell) : Option Int :=
  let lowered := pyLower (astypeStr c)
  if lowered = "true" then some 1
  else if lowered = "false" then some 0
  else none

/-- `ds` read as a decimal numeral. -/
def digitsToNat (ds : List Char) : Nat :=
  ds.foldl (fun a c => a * 10 + (c.toNat - '0'.toNat)) 0

/-- A non-empty all-digit run read as a number. -/
def parseNatDigits : List Char → Option Nat
  | [] => none
  | cs => if cs.all Char.isDigit then some (digitsToNat cs) else none

/-- Python `int()` on a string: optional surrounding whitespace, optional
sign, decimal digits. -/
def pyToInt (v : String) : Option Int :=
  match pyStrip v.toList with
  | '-' :: r => (parseNatDigits r).map (fun n => -(n : Int))
  | '+' :: r => (parseNatDigits r).map (fun n => (n : Int))
  | r => (parseNatDigits r).map (fun n => (n : Int))

/-- `Series.astype(int)` on one cell: floats truncate toward zero, strings
must parse as an integer literal, `NaN` raises. -/
def astypeInt : Cell → Except String Int
  | .i n => .ok n
  | .f q => .ok (q.num.tdiv q.den)
  | .b v => .ok (if v then 1 else 0)
  | .s v =>
    match pyToInt v with
    | some n => .ok n
    | none => .error "invalid literal for int()"
  | .nan => .error "Cannot convert non-finite values (NA or inf) to integer"

/-- Decimal core of Python `float()`: optional surrounding whitespace,
optional sign, digits with an optional fractional part. -/
def parseFloatQ (v : String) : Option ℚ :=
  let cs := pyStrip v.toList
  let signed : ℚ × List Char :=
    match cs with
    | '-' :: r => (-1, r)
    | '+' :: r => (1, r)
    | r => (1, r)
  let intPart := signed.2.takeWhile Char.isDigit
  let rest := signed.2.dropWhile Char.isDigit
  match rest with
  | [] => if intPart.isEmpty then none else some (signed.1 * (digitsToNat intPart : ℚ))
  | '.' :: fr =>
    let fracPart := fr.takeWhile Char.isDigit
    if (fr.dropWhile Char.isDigit).isEmpty && !(intPart.isEmpty && fracPart.isEmpty) then
      some (signed.1 * ((digitsToNat intPart : ℚ) +
        (digitsToNat fracPart : ℚ) / (10 : ℚ) ^ fracPart.length))
    else none
  | _ => none

/-- `Series.astype(float)` on one cell: `NaN` stays missing (`none`),
unparseable strings raise. -/
def astypeFloat : Cell → Except String (Option ℚ)
  | .i n => .ok (some (n : ℚ))
  | .f q => .ok (some q)
  | .b v => .ok (some (if v then 1 else 0))
  | .s v =>
    match parseFloatQ v with
    | some q => .ok (some q)
    | none => .error "could not convert string to float"
  | .nan => .ok none

/-- `Series.replace(0, 1)` on one cell: numeric zeros become one (the loc
columns this is applied to are numeric). -/
def replace0with1 : Cell → Cell
  | .i 0 => .i 1
  | .f q => if q = 0 then .i 1 else .f q
  | c => c

/-- NaN-propagating division of two float cells. -/
def nanDiv (a b : Option ℚ) : Option ℚ :=
  match a, b with
  | some x, some y => some (x / y)
  | _, _ => none

/-- Label-column resolution of `_map_promise_to_features` (promise_ingest.py,
lines 31-36): prefer `defects` (case-insensitive `"true"`/`"false"` to
1/0, other values `NaN`), else `label` parsed as integers, else a schema
error. -/
def resolveLabel (df : Frame) : Except String (List (Option Int)) :=
  match df.lookup "defects" with
  | some vs => .ok (vs.map parseDefect)
  | none =>
    match df.lookup "label" with
    | some vs => (vs.mapM astypeInt).map (List.map some)
    | none => .error "PROMISE dataset missing 'defects' or 'label' column"

/-- `len(df)`. -/
def numRows (df : Frame) : Nat :=
  match df with
  | [] => 0
  | c :: _ => c.2.length

/-- One row of the mapped features frame: the six feature cells in
`FEATURE_COLUMNS` order (possibly `NaN`) and the integer label (the final
`astype(int)` guarantees it is never `NaN`). -/
structure MappedRow where
  feats : List (Option ℚ)
  label : Int
deriving DecidableEq

/-- Shallow embedding of `_map_promise_to_features` (promise_ingest.py,
lines 14-71).  Any raising step makes the whole source fail: label
resolution, the loc/complexity alias chains, every `astype` conversion,
and the final `astype(int)` on the label column (which raises on any
`NaN` produced by an unmapped `defects` value). -/
def map_promise_to_features (df : Frame) : Except String (List MappedRow) := do
  let labelCol ← resolveLabel df
  let locCol ←
    match df.lookup "loc" with
    | some c => pure c
    | none =>
      match df.lookup "lOCode" with
      | some c => pure c
      | none =>
        match df.lookup "locCodeAndComment" with
        | some c => pure c
        | none => throw "PROMISE dataset missing a loc column (e.g., 'loc')"
  let vgCol ←
    match df.lookup "v(g)" with
    | some c => pure c
    | none =>
      match df.lookup "branchCount" with
      | some c => pure c
      | none => throw "PROMISE dataset missing complexity column 'v(g)' or 'branchCount'"
  let lOCommentCol := (df.lookup "lOComment").getD (List.replicate (numRows df) (Cell.f 0))
  let nCol := (df.lookup "n").getD (List.replicate (numRows df) (Cell.f 0))
  let locF ← locCol.mapM astypeFloat
  let comF ← lOCommentCol.mapM astypeFloat
  let vgF ← vgCol.mapM astypeFloat
  let nF ← nCol.mapM astypeFloat
  let locRepF ← (locCol.map replace0with1).mapM astypeFloat
  let avg := List.zipWith nanDiv nF locRepF
  let labels ← labelCol.mapM (fun o =>
    match o with
    | some n => pure n
    | none => throw "Cannot convert non-finite values (NA or inf) to integer")
  pure ((List.range (numRows df)).map (fun r =>
    { feats := [locF.getD r none, comF.getD r none, some 0,
                vgF.getD r none, avg.getD r none, some 0],
      label := labels.getD r 0 }))

/-- One entry of the batch `load_promise_datasets` iterates over: the file
is missing, the file exists but `read_csv` raises, or it parses to a
frame. -/
inductive Source where
  | absent : Source
  | unreadable : Source
  | table : Frame → Source

/-- The contribution of one source to the `dataframes` list: `none` when
the source is skipped (missing file, `read_csv` failure, or mapping
failure — the `except` swallows every error). -/
def sourceFrame : Source → Option (List MappedRow)
  | .table df => (map_promise_to_features df).toOption
  | _ => none

/-- `combined.dropna()`: drop every row containing a missing value. -/
def dropna (rows : List MappedRow) : List MappedRow :=
  rows.filter (fun r => r.feats.all Option.isSome)

/-- Shallow embedding of `load_promise_datasets` (promise_ingest.py, lines
74-96): collect the surviving sources in order, return `None` when none
survive, else concatenate and drop incomplete rows. -/
def load_promise_datasets (srcs : List Source) : Option (List MappedRow) :=
  let dataframes := srcs.filterMap sourceFrame
  if dataframes.isEmpty then none
  else some (dropna dataframes.flatten)

/-! ## Concrete instances used in witnesses and counterexamples -/

/-- A trivial concrete backend instantiating `MLBackend`. -/
def unitBackend : MLBackend Unit where
  normal := fun _ _ _ => 0
  trainRF := fun _ _ _ => ()
  predictRF := fun _ _ => 0

/-- A filesystem with no files. -/
def emptyFS : String → Option String := fun _ => none

/-- A deserializer that always raises. -/
def failUnpickle : String → Except Unit (PyObj Unit) := fun _ => .error ()

/-- A good one-row PROMISE frame. -/
def goodFrame : Frame :=
  [("defects", [Cell.s "true"]), ("loc", [Cell.i 10]),
   ("v(g)", [Cell.i 2]), ("n", [Cell.i 30])]

/-- A frame missing both label columns: its source fails. -/
def badFrame : Frame := [("loc", [Cell.i 5])]

/-! ## Helper lemmas -/

theorem pyStrip_nil : pyStrip [] = [] := rfl

theorem length_le_sum_lengths (l : List (List Char)) (h : ∀ x ∈ l, x ≠ []) :
    l.length ≤ (l.map List.length).sum := by
  induction l with
  | nil => simp
  | cons x xs ih =>
    simp only [List.map_cons, List.sum_cons, List.length_cons]
    have hx : 0 < x.length := List.length_pos.mpr (h x (by simp))
    have hxs := ih (fun y hy => h y (by simp [hy]))
    omega

theorem isCommentLine_strip_ne_nil {ln : List Char} (h : isCommentLine ln = true) :
    pyStrip ln ≠ [] := by
  intro hnil
  simp only [isCommentLine, hnil] at h
  exact absurd h (by decide)

theorem isNonEmptyLine_of_comment {ln : List Char} (h : isCommentLine ln = true) :
    isNonEmptyLine ln = true := by
  simp only [isNonEmptyLine, Bool.not_eq_true', List.isEmpty_eq_false]
  exact isCommentLine_strip_ne_nil h

/-! ## Claim theorems -/

/-- C1: for every string input, `analyze_code` terminates without raising
(it is a total function) and returns a mapping with exactly the six schema
keys in order; every value is non-negative; and `avg_line_length` is zero
iff no line of the input has non-empty trimmed content. -/
theorem analyze_code_total_schema (s : String) :
    (analyze_code s).map Prod.fst =
      ["loc", "num_comments", "num_functions", "cyclomatic_complexity_estimate",
       "avg_line_length", "num_todos"] ∧
    (∀ kv ∈ analyze_code s, 0 ≤ kv.2) ∧
    ((analyze_code s).lookup "avg_line_length" = some 0 ↔
      ∀ ln ∈ pySplitlines s.toList, pyStrip ln = []) := by
  refine ⟨rfl, ?_, ?_⟩
  · intro kv hkv
    simp only [analyze_code, List.mem_cons, List.not_mem_nil, or_false] at hkv
    rcases hkv with h | h | h | h | h | h <;> subst h
    · exact Nat.cast_nonneg _
    · exact Nat.cast_nonneg _
    · exact Nat.cast_nonneg _
    · have : (0 : ℚ) ≤ (countControlTokens s.toList : ℚ) := Nat.cast_nonneg _
      simp only [complexityMetric]
      linarith
    · simp only [avgLineLengthMetric]
      split
      · exact le_refl 0
      · exact div_nonneg (Nat.cast_nonneg _) (Nat.cast_nonneg _)
    · exact Nat.cast_nonneg _
  · have hlook : (analyze_code s).lookup "avg_line_length" =
        some (avgLineLengthMetric s) := rfl
    rw [hlook, Option.some_inj]
    have hempty : (nonEmptyLinesOf s = []) ↔
        ∀ ln ∈ pySplitlines s.toList, pyStrip ln = [] := by
      rw [nonEmptyLinesOf, List.filter_eq_nil_iff]
      constructor
      · intro h ln hln
        have := h ln hln
        simpa [isNonEmptyLine] using this
      · intro h ln hln
        simp [isNonEmptyLine, h ln hln]
    rw [← hempty]
    constructor
    · intro h
      by_contra hne
      rw [avgLineLengthMetric] at h
      rw [if_neg (by simpa using hne)] at h
      have hlen : 0 < (nonEmptyLinesOf s).length := List.length_pos.mpr hne
      have hsum : (nonEmptyLinesOf s).length ≤
          ((nonEmptyLinesOf s).map List.length).sum := by
        refine length_le_sum_lengths _ (fun x hx => ?_)
        have hmem := List.mem_filter.mp hx
        have : pyStrip x ≠ [] := by simpa [isNonEmptyLine] using hmem.2
        intro hx0
        exact this (hx0 ▸ pyStrip_nil)
      have hq : (0 : ℚ) < (((nonEmptyLinesOf s).map List.length).sum : ℚ) := by
        have : 0 < ((nonEmptyLinesOf s).map List.length).sum := lt_of_lt_of_le hlen hsum
        exact_mod_cast this
      have hd : (0 : ℚ) < ((nonEmptyLinesOf s).length : ℚ) := by exact_mod_cast hlen
      exact absurd h (ne_of_gt (div_pos hq hd))
    · intro h
      rw [avgLineLengthMetric, if_pos (by simpa using h)]

/-- Witness for C1 at concrete inputs: the empty string has no non-empty
line and zero average length, and the `loc` entry of `analyze_code "if x:"`
is non-negative. -/
theorem analyze_code_total_schema_witness :
    (analyze_code "").lookup "avg_line_length" = some 0 ∧
    (0 : ℚ) ≤ (("loc", (1 : ℚ))).2 :=
  ⟨(analyze_code_total_schema "").2.2.mpr (by decide),
   (analyze_code_total_schema "if x:").2.1 ("loc", 1) (by decide)⟩

/-- C2: for every metrics mapping (keys may be missing), the feature row
has length exactly 6 and lists, in the fixed schema order, the mapping's
value for each schema key, defaulting to 0.0 when absent; the function is
total, so it never fails. -/
theorem metrics_to_features_schema (metrics : List (String × ℚ)) :
    (metrics_to_features metrics).length = 6 ∧
    metrics_to_features metrics =
      [(metrics.lookup "loc").getD 0,
       (metrics.lookup "num_comments").getD 0,
       (metrics.lookup "num_functions").getD 0,
       (metrics.lookup "cyclomatic_complexity_estimate").getD 0,
       (metrics.lookup "avg_line_length").getD 0,
       (metrics.lookup "num_todos").getD 0] :=
  ⟨rfl, rfl⟩

/-- C7: the metrics of the four-line scenario input: 4 non-empty lines,
one comment line, at least one function match, complexity at least 3, the
average length is the mean of the four line lengths (10, 13, 15, 12), and
no TODO tokens. -/
theorem analyze_code_scenario :
    (analyze_code "def foo():\n    # comment\n    if x and y:\n        pass\n").lookup
        "loc" = some 4 ∧
    (analyze_code "def foo():\n    # comment\n    if x and y:\n        pass\n").lookup
        "num_comments" = some 1 ∧
    1 ≤ ((analyze_code "def foo():\n    # comment\n    if x and y:\n        pass\n").lookup
        "num_functions").getD 0 ∧
    3 ≤ ((analyze_code "def foo():\n    # comment\n    if x and y:\n        pass\n").lookup
        "cyclomatic_complexity_estimate").getD 0 ∧
    (analyze_code "def foo():\n    # comment\n    if x and y:\n        pass\n").lookup
        "avg_line_length" = some (((10 : ℚ) + 13 + 15 + 12) / 4) ∧
    (analyze_code "def foo():\n    # comment\n    if x and y:\n        pass\n").lookup
        "num_todos" = some 0 := by
  have hloc : (nonEmptyLinesOf
      "def foo():\n    # comment\n    if x and y:\n        pass\n").length = 4 := by decide
  have hcom : ((linesOf
      "def foo():\n    # comment\n    if x and y:\n        pass\n").filter
      isCommentLine).length = 1 := by decide
  have hfun : countFunctionMatches
      "def foo():\n    # comment\n    if x and y:\n        pass\n".toList = 1 := by decide
  have hcc : countControlTokens
      "def foo():\n    # comment\n    if x and y:\n        pass\n".toList = 2 := by decide
  have hsum : ((nonEmptyLinesOf
      "def foo():\n    # comment\n    if x and y:\n        pass\n").map
      List.length).sum = 50 := by decide
  have htodo : countTodoTokens
      "def foo():\n    # comment\n    if x and y:\n        pass\n".toList = 0 := by decide
  have hne : (nonEmptyLinesOf
      "def foo():\n    # comment\n    if x and y:\n        pass\n").isEmpty = false := by
    decide
  refine ⟨?_, ?_, ?_, ?_, ?_, ?_⟩
  · show some (locMetric _) = some 4
    rw [locMetric, hloc]; norm_num
  · show some (numCommentsMetric _) = some 1
    rw [numCommentsMetric, hcom]; norm_num
  · show 1 ≤ numFunctionsMetric _
    rw [numFunctionsMetric, hfun]; norm_num
  · show 3 ≤ complexityMetric _
    rw [complexityMetric, hcc]; norm_num
  · show some (avgLineLengthMetric _) = some (((10 : ℚ) + 13 + 15 + 12) / 4)
    rw [avgLineLengthMetric, hne]
    rw [hsum, hloc]
    norm_num
  · show some (numTodosMetric _) = some 0
    rw [numTodosMetric, htodo]; norm_num

/-- C8: `num_comments` never exceeds `loc`, because a line counted as a
comment has non-empty trimmed content and is therefore also counted by
`loc`. -/
theorem comments_le_loc (s : String) :
    ((analyze_code s).lookup "num_comments").getD 0 ≤
      ((analyze_code s).lookup "loc").getD 0 ∧
    ∀ ln : List Char, isCommentLine ln = true → pyStrip ln ≠ [] := by
  constructor
  · show numCommentsMetric s ≤ locMetric s
    rw [numCommentsMetric, locMetric, nonEmptyLinesOf, Nat.cast_le,
      ← List.countP_eq_length_filter, ← List.countP_eq_length_filter]
    exact List.countP_mono_left (fun ln _ h => isNonEmptyLine_of_comment h)
  · exact fun ln h => isCommentLine_strip_ne_nil h

/-- Witness for C8 at a concrete comment line. -/
theorem comments_le_loc_witness :
    pyStrip "# c".toList ≠ [] ∧
    ((analyze_code "# c").lookup "num_comments").getD 0 ≤
      ((analyze_code "# c").lookup "loc").getD 0 :=
  ⟨(comments_le_loc "# c").2 "# c".toList (by decide), (comments_le_loc "# c").1⟩

theorem wordB_amp : wordB (some '&') = false := by decide

theorem wordB_pipe : wordB (some '|') = false := by decide

/-- Reduction of the control-keyword matcher at a `&&` occurrence: only
the `&&` alternative can match there, and its surrounding `\b` tests
collapse to the word-ness of the neighbouring input characters. -/
theorem matchKeywordAt_ampamp (prev : Option Char) (rest : List Char) :
    matchKeywordAt prev ('&' :: '&' :: rest) =
      if wordB prev && wordB rest.head? then some ('&', rest) else none := by
  cases hp : wordB prev <;> cases hr : wordB rest.head? <;>
    simp [matchKeywordAt, CONTROL_KEYWORDS, matchAltsAt, litMatch, charEqCI,
      boundaryB, hp, hr, wordB_amp, wordB_pipe]

/-- Reduction of the control-keyword matcher at a `||` occurrence. -/
theorem matchKeywordAt_pipepipe (prev : Option Char) (rest : List Char) :
    matchKeywordAt prev ('|' :: '|' :: rest) =
      if wordB prev && wordB rest.head? then some ('|', rest) else none := by
  cases hp : wordB prev <;> cases hr : wordB rest.head? <;>
    simp [matchKeywordAt, CONTROL_KEYWORDS, matchAltsAt, litMatch, charEqCI,
      boundaryB, hp, hr, wordB_amp, wordB_pipe]

/-- C9: because the `\b` anchors wrap the whole alternation and `&`, `|`
are non-word characters, an occurrence of `&&` or `||` is counted only
when flanked by word characters on both sides; the spaced forms
`x && y` / `x || y` contribute nothing, while `a&&b` / `a||b` count. -/
theorem control_regex_word_boundary :
    (∀ prev rest, (matchKeywordAt prev ('&' :: '&' :: rest)).isSome = true →
        wordB prev = true ∧ wordB rest.head? = true) ∧
    (∀ prev rest, (matchKeywordAt prev ('|' :: '|' :: rest)).isSome = true →
        wordB prev = true ∧ wordB rest.head? = true) ∧
    countControlTokens "x && y".toList = 0 ∧
    countControlTokens "x || y".toList = 0 ∧
    countControlTokens "a&&b".toList = 1 ∧
    countControlTokens "a||b".toList = 1 := by
  refine ⟨?_, ?_, by decide, by decide, by decide, by decide⟩
  · intro prev rest h
    rw [matchKeywordAt_ampamp] at h
    by_cases hb : (wordB prev && wordB rest.head?) = true
    · exact Bool.and_eq_true _ _ |>.mp hb
    · rw [if_neg hb] at h
      exact absurd h (by decide)
  · intro prev rest h
    rw [matchKeywordAt_pipepipe] at h
    by_cases hb : (wordB prev && wordB rest.head?) = true
    · exact Bool.and_eq_true _ _ |>.mp hb
    · rw [if_neg hb] at h
      exact absurd h (by decide)

/-- Witness for C9: a `&&` match inside `a&&b` implies word characters on
both sides. -/
theorem control_regex_word_boundary_witness :
    wordB (some 'a') = true ∧ wordB (['b'].head?) = true :=
  control_regex_word_boundary.1 (some 'a') ['b'] (by decide)

/-- The loaded-branch name never equals the fallback name: it starts with
`L`, the fallback with `F`. -/
theorem loadedName_ne_fallbackName (p : String) : loadedName p ≠ fallbackName := by
  intro h
  have hd : (loadedName p).data.head? = some 'F' := by rw [h]; rfl
  rw [loadedName, String.data_append, String.data_append] at hd
  have he : ("Loaded saved model (" : String).data =
      'L' :: "oaded saved model (".data := rfl
  rw [he] at hd
  simp at hd

/-- C3 counterexample: `load_or_train_model` keeps no cache and no lock —
two calls for the same nonexistent path in one process each execute the
load-or-train step, so the step runs twice, not at most once. -/
theorem provider_not_cached_counterexample :
    trainStepsInCalls emptyFS failUnpickle
      ["model/defect_model.pkl", "model/defect_model.pkl"] = 2 ∧
    ¬ trainStepsInCalls emptyFS failUnpickle
      ["model/defect_model.pkl", "model/defect_model.pkl"] ≤ 1 := by
  decide

/-- C3 (amended): the provider is stateless — every call re-runs the
load-or-train resolution, so over `n` calls for an absent path the
training step executes `n` times; the resolution is nevertheless
deterministic, every call returning the same fallback classifier value. -/
theorem provider_uncached_per_call {RF : Type} (B : MLBackend RF)
    (fs : String → Option String) (unpickle : String → Except Unit (PyObj RF))
    (path : String) (n : Nat) (h : fs path = none) :
    load_or_train_model B fs unpickle path =
      (PyObj.model (train_fallback_model B), fallbackName) ∧
    trainStepsInCalls fs unpickle (List.replicate n path) = n := by
  constructor
  · rw [load_or_train_model, h]
  · have ht : trainsFallback fs unpickle path = true := by
      rw [trainsFallback, h]
    rw [trainStepsInCalls, List.map_replicate, ht, List.count_replicate_self]

/-- Witness for the amended C3 at a concrete empty filesystem. -/
theorem provider_uncached_per_call_witness :
    load_or_train_model unitBackend emptyFS failUnpickle "p" =
      (PyObj.model (train_fallback_model unitBackend), fallbackName) ∧
    trainStepsInCalls emptyFS failUnpickle (List.replicate 2 "p") = 2 :=
  provider_uncached_per_call unitBackend emptyFS failUnpickle "p" 2 rfl

/-- C4: with no file at the path, any two calls — even with different
paths, filesystems and deserializers, as long as the file is absent —
return the fallback classifier trained on the one fixed synthetic dataset
(`default_rng(42)`, 128 samples, `random_state=42`), so the two returned
classifiers give the same prediction on every feature vector. -/
theorem fallback_deterministic {RF : Type} (B : MLBackend RF)
    (fs₁ fs₂ : String → Option String)
    (up₁ up₂ : String → Except Unit (PyObj RF)) (p₁ p₂ : String)
    (h₁ : fs₁ p₁ = none) (h₂ : fs₂ p₂ = none) :
    (load_or_train_model B fs₁ up₁ p₁).1 =
      PyObj.model (B.trainRF (syntheticX B) (syntheticY B) 42) ∧
    (load_or_train_model B fs₁ up₁ p₁).1 = (load_or_train_model B fs₂ up₂ p₂).1 ∧
    ∀ v : List ℚ,
      predictPyObj B (load_or_train_model B fs₁ up₁ p₁).1 v =
        predictPyObj B (load_or_train_model B fs₂ up₂ p₂).1 v := by
  have e₁ : (load_or_train_model B fs₁ up₁ p₁).1 =
      PyObj.model (train_fallback_model B) := by
    rw [load_or_train_model, h₁]
  have e₂ : (load_or_train_model B fs₂ up₂ p₂).1 =
      PyObj.model (train_fallback_model B) := by
    rw [load_or_train_model, h₂]
  refine ⟨e₁, e₁.trans e₂.symm, fun v => ?_⟩
  rw [e₁, e₂]

/-- Witness for C4 with two distinct absent paths. -/
theorem fallback_deterministic_witness :
    (load_or_train_model unitBackend emptyFS failUnpickle "a").1 =
      PyObj.model (unitBackend.trainRF (syntheticX unitBackend)
        (syntheticY unitBackend) 42) ∧
    (load_or_train_model unitBackend emptyFS failUnpickle "a").1 =
      (load_or_train_model unitBackend emptyFS failUnpickle "b").1 ∧
    ∀ v : List ℚ,
      predictPyObj unitBackend (load_or_train_model unitBackend emptyFS failUnpickle "a").1 v =
        predictPyObj unitBackend (load_or_train_model unitBackend emptyFS failUnpickle "b").1 v :=
  fallback_deterministic unitBackend emptyFS emptyFS failUnpickle failUnpickle
    "a" "b" rfl rfl

/-- C10: when the file exists and deserializes, the deserialized object is
returned as-is with the loaded tag — no validation that it is a
classifier; and the fallback tag appears exactly when the file is absent
or deserialization raises. -/
theorem load_without_validation {RF : Type} (B : MLBackend RF)
    (fs : String → Option String) (unpickle : String → Except Unit (PyObj RF))
    (path : String) :
    (∀ content obj, fs path = some content → unpickle content = .ok obj →
        load_or_train_model B fs unpickle path = (obj, loadedName path)) ∧
    ((load_or_train_model B fs unpickle path).2 = fallbackName ↔
        fs path = none ∨
          ∃ content, fs path = some content ∧ unpickle content = .error ()) := by
  constructor
  · intro content obj hc ho
    simp only [load_or_train_model, hc, ho]
  · cases hfs : fs path with
    | none =>
      simp [load_or_train_model, hfs]
    | some c =>
      cases hup : unpickle c with
      | error e =>
        simp only [load_or_train_model, hfs, hup]
        cases e
        simp only [true_iff]
        exact Or.inr ⟨c, rfl, hup⟩
      | ok m =>
        simp only [load_or_train_model, hfs, hup]
        constructor
        · intro hname
          exact absurd hname (loadedName_ne_fallbackName path)
        · rintro (hnone | ⟨content, hcc, herr⟩)
          · exact absurd hnone (by simp)
          · rw [← Option.some_inj.mp hcc] at herr
            rw [hup] at herr
            exact absurd herr (by simp)

/-- Witness for C10: a non-classifier object deserialized from an existing
file is returned tagged as loaded. -/
theorem load_without_validation_witness :
    load_or_train_model unitBackend (fun _ => some "blob")
        (fun _ => .ok (PyObj.other 7)) "dir/m.pkl" =
      (PyObj.other 7, loadedName "dir/m.pkl") :=
  (load_without_validation unitBackend (fun _ => some "blob")
      (fun _ => .ok (PyObj.other 7)) "dir/m.pkl").1 "blob" (PyObj.other 7) rfl rfl

/-- C5: label resolution — `defects` wins when present and is parsed
case-insensitively (`"True"` to 1, `"false"` to 0); otherwise `label` is
parsed as integers; otherwise the source fails with the schema error. -/
theorem label_resolution (df : Frame) (vs : List Cell) :
    (df.lookup "defects" = some vs → resolveLabel df = .ok (vs.map parseDefect)) ∧
    parseDefect (Cell.s "True") = some 1 ∧
    parseDefect (Cell.s "false") = some 0 ∧
    parseDefect (Cell.b true) = some 1 ∧
    (df.lookup "defects" = none → df.lookup "label" = some vs →
        resolveLabel df = (vs.mapM astypeInt).map (List.map some)) ∧
    astypeInt (Cell.s "7") = .ok 7 ∧
    (df.lookup "defects" = none → df.lookup "label" = none →
        map_promise_to_features df =
          .error "PROMISE dataset missing 'defects' or 'label' column") := by
  refine ⟨?_, by decide, by decide, by decide, ?_, rfl, ?_⟩
  · intro h
    simp only [resolveLabel, h]
  · intro h1 h2
    simp only [resolveLabel, h1, h2]
  · intro h1 h2
    simp [map_promise_to_features, resolveLabel, h1, h2, Bind.bind, Except.bind]

/-- Witness for C5 at concrete one-column frames. -/
theorem label_resolution_witness :
    resolveLabel [("defects", [Cell.s "True", Cell.s "false"])] =
      .ok ([Cell.s "True", Cell.s "false"].map parseDefect) ∧
    resolveLabel [("label", [Cell.i 1, Cell.i 0])] =
      (([Cell.i 1, Cell.i 0].mapM astypeInt).map (List.map some)) ∧
    map_promise_to_features badFrame =
      .error "PROMISE dataset missing 'defects' or 'label' column" :=
  ⟨(label_resolution [("defects", [Cell.s "True", Cell.s "false"])]
      [Cell.s "True", Cell.s "false"]).1 rfl,
   (label_resolution [("label", [Cell.i 1, Cell.i 0])]
      [Cell.i 1, Cell.i 0]).2.2.2.2.1 rfl rfl,
   (label_resolution badFrame []).2.2.2.2.2.2 rfl rfl⟩

/-- C6 counterexample: a batch containing a failing source produces output
identical to the batch without it — the return value carries no record of
which sources failed, so failures are not surfaced (they are skipped
silently by the bare `except: continue`). -/
theorem ingest_no_failure_surfacing_counterexample :
    (map_promise_to_features badFrame).isOk = false ∧
    (map_promise_to_features goodFrame).isOk = true ∧
    load_promise_datasets [Source.table badFrame, Source.table goodFrame] =
      load_promise_datasets [Source.table goodFrame] := by
  refine ⟨rfl, rfl, ?_⟩
  have hbad : sourceFrame (Source.table badFrame) = none := rfl
  simp [load_promise_datasets, List.filterMap_cons, hbad]

/-- C6 (amended): a source that contributes no frame (missing file,
unreadable file, or failed mapping) is skipped without affecting the
others' ingestion, and a batch in which no source contributes yields the
distinct no-data result `none` instead of raising. -/
theorem ingest_skip_and_no_data :
    (∀ pre post s, sourceFrame s = none →
        load_promise_datasets (pre ++ s :: post) =
          load_promise_datasets (pre ++ post)) ∧
    (∀ srcs, (∀ s ∈ srcs, sourceFrame s = none) →
        load_promise_datasets srcs = none) := by
  constructor
  · intro pre post s hs
    simp [load_promise_datasets, List.filterMap_append, List.filterMap_cons, hs]
  · intro srcs hall
    have h : srcs.filterMap sourceFrame = [] := List.filterMap_eq_nil_iff.mpr hall
    simp [load_promise_datasets, h]

/-- Witness for the amended C6 at concrete batches. -/
theorem ingest_skip_and_no_data_witness :
    load_promise_datasets [Source.absent, Source.table goodFrame] =
      load_promise_datasets [Source.table goodFrame] ∧
    load_promise_datasets [Source.absent, Source.unreadable] = none :=
  ⟨ingest_skip_and_no_data.1 [] [Source.table goodFrame] Source.absent rfl,
   ingest_skip_and_no_data.2 [Source.absent, Source.unreadable]
     (by decide)⟩
